import Mathlib

/-!
Verification development for the blog-writer swarm notebook
(`all_agents_tutorials/blog_writer_swarm.ipynb`).

The notebook defines five agents (admin, planner, researcher, writer,
editor), five hand-off functions, a terminal function `complete_blog_post`
that writes the finished post to disk, and per-agent instruction
generators reading a shared context-variable dictionary.  The dispatch
loop itself lives in the external `swarm` package; where its behaviour is
needed it is modelled from the design document (definitions marked
`Modelled from the spec:`).
-/

namespace BlogWriterSwarm

/-- Context-variable store: a Python dict from string keys to string
values, embedded as an association list. -/
abbrev Context := List (String × String)

/-- Embedding of Python `dict.get(key, default)`: total lookup with a
default, the only dictionary access the notebook's generators use. -/
def dictGet (d : Context) (k dflt : String) : String :=
  (d.lookup k).getD dflt

/-- Python runtime errors that dictionary access could raise; the
generators are embedded in `Except PyError` so that reachability of an
error branch is a provable question rather than a typing accident. -/
inductive PyError
  | keyError (k : String)
deriving DecidableEq

/-- Identity of each agent in the roster.  The Python module builds a
literal reference cycle (hand-off functions close over module-level agent
objects); the embedding breaks the cycle by referring to agents through
their identity, resolved by `registry`. -/
inductive AgentId
  | admin
  | planner
  | researcher
  | writer
  | editor
deriving DecidableEq, Fintype

/-- Names of the seven module-level functions that can be attached to an
agent as tools. -/
inductive ToolName
  | transfer_to_planner
  | transfer_to_researcher
  | transfer_to_writer
  | transfer_to_editor
  | transfer_to_admin
  | complete_blog
  | complete_blog_post
deriving DecidableEq, Fintype

/-- Prefix of the admin system prompt, up to the interpolated topic. -/
def adminPre : String :=
  "You are the Admin Agent overseeing the blog post project on the topic: \x27"

/-- Suffix of the admin system prompt, after the interpolated topic. -/
def adminPost : String :=
  "\x27.\nYour responsibilities include initiating the project, providing guidance, and reviewing the final content.\nOnce you\x27ve set the topic, call the function to transfer to the planner agent."

/-- Embedding of `admin_instructions(context_variables)`: reads the topic
with `dict.get` and a default, then interpolates it into the prompt. -/
def admin_instructions (context_variables : Context) : Except PyError String :=
  let topic := dictGet context_variables "topic" "No topic provided"
  Except.ok (adminPre ++ topic ++ adminPost)

/-- Prefix of the planner system prompt, up to the interpolated topic. -/
def plannerPre : String :=
  "You are the Planner Agent. Based on the following topic: \x27"

/-- Suffix of the planner system prompt, after the interpolated topic. -/
def plannerPost : String :=
  "\x27\nOrganize the content into topics and sections with clear headings that will each be individually researched as points in the greater blog post.\nOnce the outline is ready, call the researcher agent. "

/-- Embedding of `planner_instructions(context_variables)`. -/
def planner_instructions (context_variables : Context) : Except PyError String :=
  let topic := dictGet context_variables "topic" "No topic provided"
  Except.ok (plannerPre ++ topic ++ plannerPost)

/-- Embedding of `researcher_instructions(context_variables)`: the
argument is ignored, the prompt is a constant string. -/
def researcher_instructions (_context_variables : Context) : Except PyError String :=
  Except.ok "You are the Researcher Agent. your task is to provide dense context and information on the topics outlined by the previous planner agent.\nThis research will serve as the information that will be formatted into a body of a blog post. Provide comprehensive research like notes for each of the sections outlined by the planner agent.\nOnce your research is complete, transfer to the writer agent"

/-- Embedding of `writer_instructions(context_variables)`: constant. -/
def writer_instructions (_context_variables : Context) : Except PyError String :=
  Except.ok "You are the Writer Agent. using the prior information write a clear blog post following the outline from the planner agent. \n    Summarise and include as much information relevant from the research into the blog post.\n    The blog post should be quite large as the context the context provided should be quite dense.\nWrite clear, engaging content for each section.\nOnce the draft is complete, call the function to transfer to the Editor Agent."

/-- Embedding of `editor_instructions(context_variables)`: constant. -/
def editor_instructions (_context_variables : Context) : Except PyError String :=
  Except.ok "You are the Editor Agent. Review and edit th prior blog post completed by the writer agent.\nMake necessary corrections and improvements.\nOnce editing is complete, call the function to complete the blog post"

/-- Embedding of `transfer_to_researcher()`: returns the fixed target. -/
def transfer_to_researcher : AgentId := AgentId.researcher

/-- Embedding of `transfer_to_planner()`: returns the fixed target. -/
def transfer_to_planner : AgentId := AgentId.planner

/-- Embedding of `transfer_to_writer()`: returns the fixed target. -/
def transfer_to_writer : AgentId := AgentId.writer

/-- Embedding of `transfer_to_editor()`: returns the fixed target. -/
def transfer_to_editor : AgentId := AgentId.editor

/-- Embedding of `transfer_to_admin()`: returns the fixed target.  The
function is defined in the notebook but attached to no agent. -/
def transfer_to_admin : AgentId := AgentId.admin

/-- Embedding of `complete_blog()`: returns a plain string; defined in
the notebook but attached to no agent. -/
def complete_blog : String := "Task completed"

/-- Embedding of Python `str.lower()` on the character list. -/
def pyLower (s : String) : String :=
  String.mk (s.data.map Char.toLower)

/-- Embedding of Python `str.replace(a, b)` for single-character pattern
and replacement, which rewrites every occurrence of the character. -/
def pyReplaceChar (s : String) (a b : Char) : String :=
  String.mk (s.data.map (fun c => if c = a then b else c))

/-- The filename computed inside `complete_blog_post`:
`title.lower().replace(" ", "-") + ".md"`. -/
def filenameOf (title : String) : String :=
  pyReplaceChar (pyLower title) ' ' '-' ++ ".md"

/-- Reading of the claim's slug description, for comparison with the
code's computation: lowercase the title, then replace every whitespace
character with the separator `-`. -/
def slugifyWhitespace (t : String) : String :=
  String.mk ((t.data.map Char.toLower).map
    (fun c => if c.isWhitespace then '-' else c))

/-- Per-character form of the amended slug description: lowercase, and
turn the character into `-` exactly when the lowercased character is the
space character. -/
def slugCharAmended (c : Char) : Char :=
  if c.toLower = ' ' then '-' else c.toLower

/-- The amended slug: lowercase the title and replace each space
character with `-`, leaving all other characters, whitespace included,
unchanged. -/
def slugifyAmended (t : String) : String :=
  String.mk (t.data.map slugCharAmended)

/-- Modelled from the spec: error taxonomy of the design document
(section 7); the source has no error handling of its own and lets the
underlying exception propagate. -/
inductive ErrKind
  | SinkWriteError
  | BackendUnavailable
  | Cancelled
  | UnknownAgent
  | UnauthorizedToolCall
  | MalformedToolCall
  | ToolExecutionError
deriving DecidableEq

/-- Modelled from the spec: the document sink's backing store, abstracted
as a name-to-content map plus a writability flag.  The source writes with
`open(filename, "w")`; whether that call succeeds is an operating-system
condition outside the program, represented here by `writable`. -/
structure FileSystem where
  writable : Bool
  files : String → Option String

/-- Writing a file: the named entry is replaced, everything else kept. -/
def FileSystem.write (fs : FileSystem) (name content : String) : FileSystem :=
  { fs with files := fun n => if n = name then some content else fs.files n }

/-- The empty, writable backing store. -/
def emptyFS : FileSystem :=
  { writable := true, files := fun _ => none }

/-- Embedding of `complete_blog_post(title, content)`: slugifies the
title into a filename, writes `content` to it, and returns the
acknowledgment string `"Task completed"`.  The failure branch is
modelled from the spec: an unwritable store yields `SinkWriteError`
(in the source the uncaught `OSError` from `open` plays this role). -/
def complete_blog_post (title content : String) (fs : FileSystem) :
    Except ErrKind (String × FileSystem) :=
  let filename := filenameOf title
  if fs.writable then
    Except.ok ("Task completed", fs.write filename content)
  else
    Except.error ErrKind.SinkWriteError

/-- An agent as built by the `Agent(...)` constructor calls: a name, an
instruction generator, and the list of tool functions it may call. -/
structure Agent where
  name : String
  instructions : Context → Except PyError String
  functions : List ToolName

/-- Embedding of `admin_agent = Agent(...)`. -/
def admin_agent : Agent :=
  { name := "Admin Agent"
    instructions := admin_instructions
    functions := [ToolName.transfer_to_planner] }

/-- Embedding of `planner_agent = Agent(...)`. -/
def planner_agent : Agent :=
  { name := "Planner Agent"
    instructions := planner_instructions
    functions := [ToolName.transfer_to_researcher] }

/-- Embedding of `researcher_agent = Agent(...)`. -/
def researcher_agent : Agent :=
  { name := "Researcher Agent"
    instructions := researcher_instructions
    functions := [ToolName.transfer_to_writer] }

/-- Embedding of `writer_agent = Agent(...)`. -/
def writer_agent : Agent :=
  { name := "Writer Agent"
    instructions := writer_instructions
    functions := [ToolName.transfer_to_editor] }

/-- Embedding of `editor_agent = Agent(...)`: its sole function is the
terminal `complete_blog_post`. -/
def editor_agent : Agent :=
  { name := "Editor Agent"
    instructions := editor_instructions
    functions := [ToolName.complete_blog_post] }

/-- Resolves an agent identity to the agent value registered under it. -/
def registry : AgentId → Agent
  | AgentId.admin => admin_agent
  | AgentId.planner => planner_agent
  | AgentId.researcher => researcher_agent
  | AgentId.writer => writer_agent
  | AgentId.editor => editor_agent

/-- The hand-off target of a tool, when it is a hand-off tool: the fixed
agent returned by the corresponding transfer function. -/
def toolTarget : ToolName → Option AgentId
  | ToolName.transfer_to_planner => some transfer_to_planner
  | ToolName.transfer_to_researcher => some transfer_to_researcher
  | ToolName.transfer_to_writer => some transfer_to_writer
  | ToolName.transfer_to_editor => some transfer_to_editor
  | ToolName.transfer_to_admin => some transfer_to_admin
  | ToolName.complete_blog => none
  | ToolName.complete_blog_post => none

/-- Position of each agent in the intended admin-to-editor pipeline. -/
def idx : AgentId → Nat
  | AgentId.admin => 0
  | AgentId.planner => 1
  | AgentId.researcher => 2
  | AgentId.writer => 3
  | AgentId.editor => 4

/-- The hand-off target of an agent whose tool list is a single hand-off
tool, and `none` otherwise. -/
def soleHandoffTarget (a : AgentId) : Option AgentId :=
  match (registry a).functions with
  | [t] => toolTarget t
  | _ => none

/-- Modelled from the spec: classification of a tool invocation's result
by the Tool Resolver (section 4.3). -/
inductive ToolOutcome
  | data (value : String)
  | handoff (next : AgentId)
  | terminal (result : String)

/-- Modelled from the spec: one entry of the conversation history
(section 3); the swarm package's history bookkeeping is not in the
repository. -/
inductive HistEntry
  | message (role : String) (content : String)
  | handoffRecord (target : AgentId)
  | toolResult (value : String)

/-- Modelled from the spec: dispatch-loop states (section 4.4). -/
inductive SessState
  | awaitingInput
  | generating
  | resolvingTool
  | done
  | failed (e : ErrKind)

/-- Modelled from the spec: a session aggregates active agent, context,
history, loop state, and the sink's backing store (sections 3 and 4.4). -/
structure Session where
  active : AgentId
  context : Context
  history : List HistEntry
  state : SessState
  fs : FileSystem

/-- Modelled from the spec: session entry point (section 6), starting at
the designated entry agent with the seeded context, empty history, and in
the `awaitingInput` state. -/
def startSession (entry : AgentId) (ctx : Context) : Session :=
  { active := entry, context := ctx, history := [], state := SessState.awaitingInput
    fs := emptyFS }

/-- Executes a named tool with the model-supplied argument payload.  The
transfer tools take no parameters, so the payload is ignored for them and
they return their fixed hand-off target, touching neither the context nor
the backing store; `complete_blog_post` consumes `(title, content)` and
writes to the store.  The resolver wrapper is modelled from the spec
(section 4.3); the tool bodies are the source's. -/
def invokeTool (n : ToolName) (title content : String) (ctx : Context)
    (fs : FileSystem) : Except ErrKind (ToolOutcome × Context × FileSystem) :=
  match n with
  | ToolName.transfer_to_planner =>
      Except.ok (ToolOutcome.handoff transfer_to_planner, ctx, fs)
  | ToolName.transfer_to_researcher =>
      Except.ok (ToolOutcome.handoff transfer_to_researcher, ctx, fs)
  | ToolName.transfer_to_writer =>
      Except.ok (ToolOutcome.handoff transfer_to_writer, ctx, fs)
  | ToolName.transfer_to_editor =>
      Except.ok (ToolOutcome.handoff transfer_to_editor, ctx, fs)
  | ToolName.transfer_to_admin =>
      Except.ok (ToolOutcome.handoff transfer_to_admin, ctx, fs)
  | ToolName.complete_blog =>
      Except.ok (ToolOutcome.data complete_blog, ctx, fs)
  | ToolName.complete_blog_post =>
      match complete_blog_post title content fs with
      | Except.ok (ack, fs2) => Except.ok (ToolOutcome.terminal ack, ctx, fs2)
      | Except.error e => Except.error e

/-- Modelled from the spec: the dispatch loop's reaction to a classified
tool outcome (section 4.4): data is appended and generation resumes; a
hand-off swaps the active agent and records the hand-off; a terminal
outcome records the result and closes the session. -/
def resolveOutcome (s : Session) (o : ToolOutcome) : Session :=
  match o with
  | ToolOutcome.data v =>
      { s with history := s.history ++ [HistEntry.toolResult v]
               state := SessState.generating }
  | ToolOutcome.handoff t =>
      { s with active := t
               history := s.history ++ [HistEntry.handoffRecord t]
               state := SessState.generating }
  | ToolOutcome.terminal r =>
      { s with history := s.history ++ [HistEntry.toolResult r]
               state := SessState.done }

/-- Modelled from the spec: a full tool step of the dispatch loop.  In a
terminal session state (`done` or `failed`) nothing runs; otherwise the
tool is invoked, an execution error is fatal (the session moves to
`failed` with the error kind, with no retry), and a successful outcome is
resolved as above. -/
def sessionInvokeTool (s : Session) (n : ToolName) (title content : String) :
    Session :=
  match s.state with
  | SessState.done => s
  | SessState.failed _ => s
  | _ =>
      match invokeTool n title content s.context s.fs with
      | Except.error e => { s with state := SessState.failed e }
      | Except.ok (o, ctx2, fs2) =>
          resolveOutcome { s with context := ctx2, fs := fs2 } o

/-- A run of consecutive hand-off outcomes through the dispatch loop. -/
def runHandoffs (s : Session) (targets : List AgentId) : Session :=
  targets.foldl (fun acc t => resolveOutcome acc (ToolOutcome.handoff t)) s

/-- An unwritable backing store, for exercising the sink failure path. -/
def unwritableFS : FileSystem :=
  { writable := false, files := fun _ => none }

/-- Substring containment, at the level of character lists. -/
def strContains (s sub : String) : Prop :=
  ∃ l r, s.data = l ++ sub.data ++ r

theorem strAppendData (s t : String) : (s ++ t).data = s.data ++ t.data := by
  cases s
  cases t
  rfl

theorem strContains_appends (p x q : String) : strContains (p ++ x ++ q) x := by
  refine ⟨p.data, q.data, ?_⟩
  rw [strAppendData, strAppendData]

theorem runHandoffs_active (s : Session) (l : List AgentId) :
    (runHandoffs s l).active = l.getLast?.getD s.active := by
  induction l generalizing s with
  | nil => rfl
  | cons a l ih =>
      have hstep : runHandoffs s (a :: l)
          = runHandoffs (resolveOutcome s (ToolOutcome.handoff a)) l := rfl
      rw [hstep, ih]
      cases l with
      | nil => rfl
      | cons b m =>
          have hs : (b :: m).getLast?.isSome :=
            List.getLast?_isSome.mpr (by simp)
          obtain ⟨x, hx⟩ := Option.isSome_iff_exists.mp hs
          rw [List.getLast?_cons_cons, hx]
          rfl

theorem runHandoffs_histLen (s : Session) (l : List AgentId) :
    (runHandoffs s l).history.length = s.history.length + l.length := by
  induction l generalizing s with
  | nil => rfl
  | cons a l ih =>
      have hstep : runHandoffs s (a :: l)
          = runHandoffs (resolveOutcome s (ToolOutcome.handoff a)) l := rfl
      rw [hstep, ih]
      simp [resolveOutcome]
      omega

/-- Claim C1: after any run of hand-off outcomes the active agent is the
last (Nth) target named, the history length grows by exactly one entry
per hand-off (hence is monotonically non-decreasing), and the sole
hand-off tool of each agent, starting from admin, targets planner, then
researcher, then writer, then editor. -/
theorem C1_handoff_sequence (s : Session) (targets : List AgentId) (t : AgentId)
    (h : targets.getLast? = some t) :
    (runHandoffs s targets).active = t ∧
    (runHandoffs s targets).history.length = s.history.length + targets.length ∧
    s.history.length ≤ (runHandoffs s targets).history.length ∧
    soleHandoffTarget AgentId.admin = some AgentId.planner ∧
    soleHandoffTarget AgentId.planner = some AgentId.researcher ∧
    soleHandoffTarget AgentId.researcher = some AgentId.writer ∧
    soleHandoffTarget AgentId.writer = some AgentId.editor ∧
    soleHandoffTarget AgentId.editor = none := by
  refine ⟨?_, runHandoffs_histLen s targets, ?_, rfl, rfl, rfl, rfl, rfl⟩
  · rw [runHandoffs_active, h]
    rfl
  · rw [runHandoffs_histLen s targets]
    omega

/-- Claim C1 witness: the concrete four-hand-off run of the notebook's
pipeline, from the admin entry agent. -/
theorem C1_handoff_sequence_witness :
    ([AgentId.planner, AgentId.researcher, AgentId.writer,
        AgentId.editor].getLast? = some AgentId.editor) ∧
    ((runHandoffs (startSession AgentId.admin
        [("topic", "Impact of LLMs on healthcare")])
        [AgentId.planner, AgentId.researcher, AgentId.writer,
          AgentId.editor]).active = AgentId.editor ∧
      (runHandoffs (startSession AgentId.admin
        [("topic", "Impact of LLMs on healthcare")])
        [AgentId.planner, AgentId.researcher, AgentId.writer,
          AgentId.editor]).history.length
        = (startSession AgentId.admin
            [("topic", "Impact of LLMs on healthcare")]).history.length + 4 ∧
      (startSession AgentId.admin
          [("topic", "Impact of LLMs on healthcare")]).history.length
        ≤ (runHandoffs (startSession AgentId.admin
            [("topic", "Impact of LLMs on healthcare")])
            [AgentId.planner, AgentId.researcher, AgentId.writer,
              AgentId.editor]).history.length ∧
      soleHandoffTarget AgentId.admin = some AgentId.planner ∧
      soleHandoffTarget AgentId.planner = some AgentId.researcher ∧
      soleHandoffTarget AgentId.researcher = some AgentId.writer ∧
      soleHandoffTarget AgentId.writer = some AgentId.editor ∧
      soleHandoffTarget AgentId.editor = none) :=
  ⟨rfl, C1_handoff_sequence _ _ _ rfl⟩

/-- Claim C2: each of the five transfer tools ignores the model-supplied
argument payload and returns its single fixed hand-off target, leaving
the context store and the backing store untouched; the conversation
history is not an input of a tool invocation at all, so the call leaves
it unchanged as well. -/
theorem C2_transfer_frame (ctx : Context) (fs : FileSystem)
    (title content : String) :
    invokeTool ToolName.transfer_to_planner title content ctx fs
      = Except.ok (ToolOutcome.handoff AgentId.planner, ctx, fs) ∧
    invokeTool ToolName.transfer_to_researcher title content ctx fs
      = Except.ok (ToolOutcome.handoff AgentId.researcher, ctx, fs) ∧
    invokeTool ToolName.transfer_to_writer title content ctx fs
      = Except.ok (ToolOutcome.handoff AgentId.writer, ctx, fs) ∧
    invokeTool ToolName.transfer_to_editor title content ctx fs
      = Except.ok (ToolOutcome.handoff AgentId.editor, ctx, fs) ∧
    invokeTool ToolName.transfer_to_admin title content ctx fs
      = Except.ok (ToolOutcome.handoff AgentId.admin, ctx, fs) ∧
    transfer_to_planner = AgentId.planner ∧
    transfer_to_researcher = AgentId.researcher ∧
    transfer_to_writer = AgentId.writer ∧
    transfer_to_editor = AgentId.editor ∧
    transfer_to_admin = AgentId.admin :=
  ⟨rfl, rfl, rfl, rfl, rfl, rfl, rfl, rfl, rfl, rfl⟩

/-- Claim C9: the researcher, writer, and editor instruction generators
are independent of the context store: any two contexts produce the
identical instruction string. -/
theorem C9_context_independence (c1 c2 : Context) :
    researcher_instructions c1 = researcher_instructions c2 ∧
    writer_instructions c1 = writer_instructions c2 ∧
    editor_instructions c1 = editor_instructions c2 :=
  ⟨rfl, rfl, rfl⟩

/-- Claim C3: whenever the context maps the key `topic` to a string `X`,
the admin (entry) agent's instruction generator succeeds with a string
that contains `X` verbatim. -/
theorem C3_admin_topic_verbatim (ctx : Context) (X : String)
    (h : ctx.lookup "topic" = some X) :
    ∃ s, admin_instructions ctx = Except.ok s ∧ strContains s X := by
  refine ⟨adminPre ++ X ++ adminPost, ?_, strContains_appends adminPre X adminPost⟩
  unfold admin_instructions dictGet
  rw [h]
  rfl

/-- Claim C3 witness: the concrete context binding the topic to `"X"`. -/
theorem C3_admin_topic_verbatim_witness :
    (([("topic", "X")] : Context).lookup "topic" = some "X") ∧
    ∃ s, admin_instructions [("topic", "X")] = Except.ok s ∧ strContains s "X" :=
  ⟨rfl, C3_admin_topic_verbatim [("topic", "X")] "X" rfl⟩

/-- Claim C7: every instruction generator is total — on any context each
of the five returns `Except.ok` of a string — and when the key `topic` is
absent, the admin and planner generators fall back to the default value
`"No topic provided"`, which then appears in their output. -/
theorem C7_instructions_total (ctx : Context) :
    (∃ s, admin_instructions ctx = Except.ok s) ∧
    (∃ s, planner_instructions ctx = Except.ok s) ∧
    (∃ s, researcher_instructions ctx = Except.ok s) ∧
    (∃ s, writer_instructions ctx = Except.ok s) ∧
    (∃ s, editor_instructions ctx = Except.ok s) ∧
    (ctx.lookup "topic" = none →
      (∃ s, admin_instructions ctx = Except.ok s
          ∧ strContains s "No topic provided") ∧
      (∃ s, planner_instructions ctx = Except.ok s
          ∧ strContains s "No topic provided")) := by
  refine ⟨⟨_, rfl⟩, ⟨_, rfl⟩, ⟨_, rfl⟩, ⟨_, rfl⟩, ⟨_, rfl⟩, fun h => ⟨?_, ?_⟩⟩
  · refine ⟨adminPre ++ "No topic provided" ++ adminPost, ?_,
      strContains_appends adminPre "No topic provided" adminPost⟩
    unfold admin_instructions dictGet
    rw [h]
    rfl
  · refine ⟨plannerPre ++ "No topic provided" ++ plannerPost, ?_,
      strContains_appends plannerPre "No topic provided" plannerPost⟩
    unfold planner_instructions dictGet
    rw [h]
    rfl

/-- Claim C7 witness: the empty context, in which `topic` is absent. -/
theorem C7_instructions_total_witness :
    (([] : Context).lookup "topic" = none) ∧
    ((∃ s, admin_instructions [] = Except.ok s) ∧
      (∃ s, planner_instructions [] = Except.ok s) ∧
      (∃ s, researcher_instructions [] = Except.ok s) ∧
      (∃ s, writer_instructions [] = Except.ok s) ∧
      (∃ s, editor_instructions [] = Except.ok s) ∧
      (([] : Context).lookup "topic" = none →
        (∃ s, admin_instructions [] = Except.ok s
            ∧ strContains s "No topic provided") ∧
        (∃ s, planner_instructions [] = Except.ok s
            ∧ strContains s "No topic provided"))) :=
  ⟨rfl, C7_instructions_total []⟩

/-- Claim C8: every registered agent exposes exactly one function, the
defined functions `transfer_to_admin` and `complete_blog` belong to no
agent's function list, and every hand-off edge of the roster moves
strictly one position forward in the admin-planner-researcher-writer-
editor order, so the hand-off graph is the strict linear chain with no
back-references. -/
theorem C8_linear_chain :
    (∀ a : AgentId, (registry a).functions.length = 1) ∧
    (∀ a : AgentId, ToolName.transfer_to_admin ∉ (registry a).functions ∧
      ToolName.complete_blog ∉ (registry a).functions) ∧
    (∀ a b : AgentId, ∀ t : ToolName, t ∈ (registry a).functions →
      toolTarget t = some b → idx b = idx a + 1) := by
  refine ⟨?_, ?_, ?_⟩ <;> decide

/-- Claim C8 witness: the admin-to-planner edge instantiates the
forward-step property. -/
theorem C8_linear_chain_witness :
    (ToolName.transfer_to_planner ∈ (registry AgentId.admin).functions) ∧
    (toolTarget ToolName.transfer_to_planner = some AgentId.planner) ∧
    idx AgentId.planner = idx AgentId.admin + 1 :=
  ⟨by decide, by decide,
    C8_linear_chain.2.2 AgentId.admin AgentId.planner ToolName.transfer_to_planner
      (by decide) (by decide)⟩

theorem filenameOf_eq_amended (title : String) :
    filenameOf title = slugifyAmended title ++ ".md" := by
  unfold filenameOf pyReplaceChar pyLower slugifyAmended
  rw [List.map_map]
  rfl

/-- Claim C4 counterexample: on the title `"a\tb"` the code's filename
keeps the tab character, while lowercasing-and-replacing-whitespace would
give `"a-b.md"`; the persisted entry sits under the tab-bearing name, not
under the whitespace-slug name. -/
theorem C4_slug_counterexample :
    filenameOf "a\tb" ≠ slugifyWhitespace "a\tb" ++ ".md" ∧
    slugifyWhitespace "a\tb" ++ ".md" = "a-b.md" ∧
    filenameOf "a\tb" = "a\tb.md" ∧
    (emptyFS.write (filenameOf "a\tb") "x").files "a-b.md" = none ∧
    (emptyFS.write (filenameOf "a\tb") "x").files "a\tb.md" = some "x" := by
  refine ⟨?_, ?_, ?_, ?_, ?_⟩ <;> decide

/-- Claim C4 as amended: `complete_blog_post` derives the identifier by
lowercasing the title and replacing each space character (not every
whitespace character) with `-`, and persists under that slug plus the
fixed extension `.md`. -/
theorem C4_slug_amended (title content : String) (fs : FileSystem)
    (h : fs.writable = true) :
    filenameOf title = slugifyAmended title ++ ".md" ∧
    complete_blog_post title content fs
      = Except.ok ("Task completed",
          fs.write (slugifyAmended title ++ ".md") content) := by
  refine ⟨filenameOf_eq_amended title, ?_⟩
  simp [complete_blog_post, h, filenameOf_eq_amended]

/-- Claim C4 amended witness: a concrete writable store and title. -/
theorem C4_slug_amended_witness :
    (emptyFS.writable = true) ∧
    (filenameOf "A b" = slugifyAmended "A b" ++ ".md" ∧
      complete_blog_post "A b" "c" emptyFS
        = Except.ok ("Task completed",
            emptyFS.write (slugifyAmended "A b" ++ ".md") "c")) :=
  ⟨rfl, C4_slug_amended "A b" "c" emptyFS rfl⟩

/-- Claim C5: the editor agent's sole tool is `complete_blog_post`, and
on a writable store that tool persists exactly the given content under
the title-derived filename and returns the non-error acknowledgment
`"Task completed"`. -/
theorem C5_terminal_delivery (title content : String) (fs : FileSystem)
    (h : fs.writable = true) :
    editor_agent.functions = [ToolName.complete_blog_post] ∧
    complete_blog_post title content fs
      = Except.ok ("Task completed", fs.write (filenameOf title) content) ∧
    (fs.write (filenameOf title) content).files (filenameOf title)
      = some content := by
  refine ⟨rfl, ?_, ?_⟩
  · simp [complete_blog_post, h]
  · simp [FileSystem.write]

/-- Claim C5 witness: the spec's scenario title on the empty store. -/
theorem C5_terminal_delivery_witness :
    (emptyFS.writable = true) ∧
    (editor_agent.functions = [ToolName.complete_blog_post] ∧
      complete_blog_post "Impact of LLMs on healthcare" "body" emptyFS
        = Except.ok ("Task completed",
            emptyFS.write (filenameOf "Impact of LLMs on healthcare") "body") ∧
      (emptyFS.write (filenameOf "Impact of LLMs on healthcare") "body").files
          (filenameOf "Impact of LLMs on healthcare") = some "body") :=
  ⟨rfl, C5_terminal_delivery "Impact of LLMs on healthcare" "body" emptyFS rfl⟩

/-- Claim C6: `complete_blog_post` fails with `SinkWriteError` exactly
when the backing store is unwritable; in the dispatch loop that failure
moves the session to the `failed` state, and from a failed session no
further tool invocation runs, so there is no automatic retry. -/
theorem C6_sink_error_fatal (title content : String) (a : AgentId)
    (ctx : Context) (hist : List HistEntry) (fs : FileSystem) (e : ErrKind)
    (n : ToolName) :
    (complete_blog_post title content fs = Except.error ErrKind.SinkWriteError
      ↔ fs.writable = false) ∧
    (fs.writable = false →
      sessionInvokeTool
          { active := a, context := ctx, history := hist
            state := SessState.resolvingTool, fs := fs }
          ToolName.complete_blog_post title content
        = { active := a, context := ctx, history := hist
            state := SessState.failed ErrKind.SinkWriteError, fs := fs }) ∧
    sessionInvokeTool
        { active := a, context := ctx, history := hist
          state := SessState.failed e, fs := fs } n title content
      = { active := a, context := ctx, history := hist
          state := SessState.failed e, fs := fs } := by
  refine ⟨?_, ?_, rfl⟩
  · cases hw : fs.writable <;> simp [complete_blog_post, hw]
  · intro h2
    simp [sessionInvokeTool, invokeTool, complete_blog_post, h2]

/-- Claim C6 witness: the editor session over the unwritable store. -/
theorem C6_sink_error_fatal_witness :
    (unwritableFS.writable = false) ∧
    ((complete_blog_post "t" "c" unwritableFS
        = Except.error ErrKind.SinkWriteError ↔ unwritableFS.writable = false) ∧
      (unwritableFS.writable = false →
        sessionInvokeTool
            { active := AgentId.editor, context := [], history := []
              state := SessState.resolvingTool, fs := unwritableFS }
            ToolName.complete_blog_post "t" "c"
          = { active := AgentId.editor, context := [], history := []
              state := SessState.failed ErrKind.SinkWriteError
              fs := unwritableFS }) ∧
      sessionInvokeTool
          { active := AgentId.editor, context := [], history := []
            state := SessState.failed ErrKind.SinkWriteError
            fs := unwritableFS }
          ToolName.transfer_to_planner "t" "c"
        = { active := AgentId.editor, context := [], history := []
            state := SessState.failed ErrKind.SinkWriteError
            fs := unwritableFS }) :=
  ⟨rfl, C6_sink_error_fatal "t" "c" AgentId.editor [] [] unwritableFS
    ErrKind.SinkWriteError ToolName.transfer_to_planner⟩

/-- Claim C10: on a writable store, running `complete_blog_post` twice
with the same title and content yields the same acknowledgment both
times and leaves the same file map as running it once, and the second
run silently overwrites the file the first run created instead of
failing. -/
theorem C10_idempotent_overwrite (title content : String) (fs : FileSystem)
    (h : fs.writable = true) :
    ∃ fs1, complete_blog_post title content fs
        = Except.ok ("Task completed", fs1) ∧
      complete_blog_post title content fs1
        = Except.ok ("Task completed", fs1.write (filenameOf title) content) ∧
      (fs1.write (filenameOf title) content).files = fs1.files ∧
      fs1.files (filenameOf title) = some content := by
  refine ⟨fs.write (filenameOf title) content, ?_, ?_, ?_, ?_⟩
  · simp [complete_blog_post, h]
  · simp [complete_blog_post, FileSystem.write, h]
  · funext n
    by_cases hn : n = filenameOf title <;> simp [FileSystem.write, hn]
  · simp [FileSystem.write]

/-- Claim C10 witness: a concrete double write on the empty store. -/
theorem C10_idempotent_overwrite_witness :
    (emptyFS.writable = true) ∧
    ∃ fs1, complete_blog_post "T" "c" emptyFS
        = Except.ok ("Task completed", fs1) ∧
      complete_blog_post "T" "c" fs1
        = Except.ok ("Task completed", fs1.write (filenameOf "T") "c") ∧
      (fs1.write (filenameOf "T") "c").files = fs1.files ∧
      fs1.files (filenameOf "T") = some "c" :=
  ⟨rfl, C10_idempotent_overwrite "T" "c" emptyFS rfl⟩

end BlogWriterSwarm
